import Mathlib

/-!
# Package org: sessions, password check and route table

A shallow embedding of `org/user.go` and `org/init.go`.

Conventions of the embedding.

* Functions that read or write through `app.DB()` take the database value
  explicitly and hand the new one back.  The persistence engine (bun over a
  SQL database) is outside the package; `DB` below models the two tables the
  functions touch, with the constraints and defaults that the struct tags of
  `Session` declare and with instants kept to the microsecond, the precision
  of a timestamp column.
* `time.Now()` is an argument named `now`.
* A Go `error` result is an `Option Error` (`none` is `nil`); a Go pair
  `(*T, error)` of which exactly one side is non-nil is an `Except Error T`.
* Identifiers that the package uses but declares in files that are not part
  of the sources at hand (`CreateUserToken`, `errUserNotFound`, the
  middleware and the handlers) are arguments or names, never invented bodies.
-/

namespace Org

/-! ## Time -/

/-- A wall-clock instant in nanoseconds since the Unix epoch.  Instants that
come back from the database carry no monotonic reading, so `Before` compares
wall-clock instants. -/
abbrev Time := Int

/-- Go `time.Duration`: a count of nanoseconds. -/
abbrev Duration := Int

/-- Go `time.Hour`. -/
def Hour : Duration := 3600000000000

/-- The zero value of `time.Time` (1 January of year 1, UTC). -/
def zeroTime : Time := -62135596800000000000

/-- Go `t.Add(d)`. -/
def Time.Add (t : Time) (d : Duration) : Time := t + d

/-- Go `t.Before(u)`: `t` is strictly earlier than `u`. -/
def Time.Before (t u : Time) : Bool := decide (t < u)

/-- The instant as a timestamp column of the engine keeps it: cut down to the
whole microsecond.  An instant written to the table and read again has lost
its sub-microsecond part. -/
def Time.micro (t : Time) : Time := t - t % 1000

/-! ## Errors -/

/-- Error values that reach the functions of the package. -/
inductive Error where
  /-- A value made by `errors.New text`. -/
  | errorsNew (text : String)
  /-- A package-level error variable, known by its identifier. -/
  | pkgVar (ident : String)
  /-- The engine found no row for a single-row `Scan` (`sql.ErrNoRows`). -/
  | noRows
  /-- The engine refused a row because of the named unique constraint. -/
  | uniqueViolation (constraint : String)
  /-- Any other failure of the round trip to the engine. -/
  | engine (text : String)
  deriving DecidableEq, Repr

/-- Modelled from the spec: the package variable `errUserNotFound` is used by
`ComparePassword` but declared in a file that is not among the sources; it is
the value that stands for the `UserNotFound` failure. -/
def errUserNotFound : Error := Error.pkgVar "errUserNotFound"

/-- The failure taxonomy, in the words of the specification. -/
inductive Failure where
  | InvalidCredentials
  | UserNotFound
  | DuplicateUsername
  | SessionNotFound
  | SessionExpired
  | SelfFollow
  deriving DecidableEq, Repr

/-- The entry of the taxonomy that an error value of the package stands for:
`errUserNotFound` is `UserNotFound`, the error made in `SelectSessionByToken`
is `SessionExpired`; errors handed on from the engine have no entry. -/
def Error.failure : Error → Option Failure
  | Error.pkgVar "errUserNotFound" => some Failure.UserNotFound
  | Error.errorsNew "session expired" => some Failure.SessionExpired
  | _ => none

/-! ## Records -/

/-- Go `User`. -/
structure User where
  ID : Nat
  Name : String
  LastName : String
  Username : String
  Email : String
  Image : String
  Password : String
  deriving DecidableEq, Repr

/-- Go `Session`.  The relation field `User` is not a column and none of the
functions below reads or writes it; it is left out.  `DeviceInfo` keeps each
JSON value as its text. -/
structure Session where
  ID : Nat
  UserId : Nat
  Token : String
  Provider : String
  LastTimeActive : Time
  ExpiresAt : Time
  DeviceInfo : List (String × String)
  deriving DecidableEq, Repr

/-- The zero value of `Session` (`var session Session`). -/
def Session.zero : Session :=
  { ID := 0, UserId := 0, Token := "", Provider := "",
    LastTimeActive := zeroTime, ExpiresAt := zeroTime, DeviceInfo := [] }

/-! ## The sessions table -/

/-- The database behind `app.DB()`: the rows of the table of `User`, the rows
of the table of `Session` in insertion order, and the last value that the
autoincrement sequence of the session `id` handed out. -/
structure DB where
  users : List User
  sessions : List Session
  sessionsSeq : Nat
  deriving DecidableEq, Repr

/-- The tokens held by the stored sessions, in row order. -/
def DB.tokens (db : DB) : List String := db.sessions.map Session.Token

/-- The circumstances of one statement: whether the round trip itself fails
(and with what), and the engine's `current_timestamp`. -/
structure Exec where
  fault : Option Error
  currentTimestamp : Time
  deriving DecidableEq, Repr

/-- What `NewInsert().Model(&session).Exec` leaves behind: the error, the
session value as it stands in memory afterwards, and the table. -/
structure InsertResult where
  err : Option Error
  session : Session
  db : DB
  deriving DecidableEq, Repr

/-- The row that an insert of `s` stores: a zero `ID` is taken from the
sequence (`pk,autoincrement`), a column left at its zero value takes the
default its tag declares (`default:'LOCAL'`, `default:current_timestamp`),
and the two instants are kept to the microsecond. -/
def DB.rowFor (c : Exec) (db : DB) (s : Session) : Session :=
  { s with
    ID := if s.ID = 0 then db.sessionsSeq + 1 else s.ID
    Provider := if s.Provider = "" then "LOCAL" else s.Provider
    LastTimeActive :=
      Time.micro
        (if s.LastTimeActive = zeroTime then c.currentTimestamp else s.LastTimeActive)
    ExpiresAt := Time.micro s.ExpiresAt }

/-- The session value in memory after an accepted insert of `s`: the columns
the engine filled in (the id, and a default taken for a zero value) are read
back from the stored row; every field that was set keeps the value it had in
memory, so `ExpiresAt` is still the instant computed by the caller. -/
def DB.returned (c : Exec) (db : DB) (s : Session) : Session :=
  { s with
    ID := (db.rowFor c s).ID
    Provider := (db.rowFor c s).Provider
    LastTimeActive :=
      if s.LastTimeActive = zeroTime then (db.rowFor c s).LastTimeActive
      else s.LastTimeActive }

/-- The sequence after an insert of `s` was attempted: a value drawn from it
stays drawn, whether or not the row was accepted. -/
def DB.seqAfter (db : DB) (s : Session) : Nat :=
  if s.ID = 0 then db.sessionsSeq + 1 else db.sessionsSeq

/-- Insert of one session row.  The primary key and the `unique` tag on
`Token` make the engine refuse a row whose id or token is already stored.  On
success the columns the engine filled in are read back into the session
value. -/
def DB.insertSession (c : Exec) (db : DB) (s : Session) : InsertResult :=
  match c.fault with
  | some e => { err := some e, session := s, db := db }
  | none =>
    let row := db.rowFor c s
    if db.sessions.any (fun r => decide (r.ID = row.ID)) then
      { err := some (Error.uniqueViolation "sessions_pkey"), session := s,
        db := { db with sessionsSeq := db.seqAfter s } }
    else if db.sessions.any (fun r => decide (r.Token = row.Token)) then
      { err := some (Error.uniqueViolation "sessions_token_key"), session := s,
        db := { db with sessionsSeq := db.seqAfter s } }
    else
      { err := none, session := db.returned c s,
        db := { db with sessions := db.sessions ++ [row], sessionsSeq := db.seqAfter s } }

/-- Single-row select `WHERE token = ?` scanned into a `Session`: the first
matching row, or `sql.ErrNoRows`. -/
def DB.scanSessionByToken (c : Exec) (db : DB) (token : String) : Except Error Session :=
  match c.fault with
  | some e => Except.error e
  | none =>
    match db.sessions.find? (fun r => decide (r.Token = token)) with
    | some r => Except.ok r
    | none => Except.error Error.noRows

/-- Single-row select `WHERE username = ?` scanned into a `User`: the first
matching row, or `sql.ErrNoRows`. -/
def DB.scanUserByUsername (c : Exec) (db : DB) (username : String) : Except Error User :=
  match c.fault with
  | some e => Except.error e
  | none =>
    match db.users.find? (fun r => decide (r.Username = username)) with
    | some r => Except.ok r
    | none => Except.error Error.noRows

/-- Update `SET last_time_active = ? WHERE id = ?`: every row with that id
gets the new instant, kept to the microsecond; matching no row is not an
error. -/
def DB.updateLastTimeActive (c : Exec) (db : DB) (id : Nat) (t : Time) : Except Error DB :=
  match c.fault with
  | some e => Except.error e
  | none =>
    Except.ok { db with
      sessions := db.sessions.map
        (fun r => if r.ID = id then { r with LastTimeActive := Time.micro t } else r) }

/-! ## `org/user.go` -/

/-- The state after `CreateSession`: the two results, the state of the token
generator and the table. -/
structure CreateResult (σ : Type) where
  session : Session
  err : Option Error
  gen : σ
  db : DB

/-- Go `(u *User) CreateSession`.  `CreateUserToken` is declared outside the
sources at hand and is an argument: given the user id and the time to live it
yields a token or an error and moves its own state `σ` on. -/
def User.CreateSession {σ : Type}
    (CreateUserToken : Nat → Duration → σ → Except Error String × σ)
    (now : Time) (c : Exec) (u : User) (g : σ) (db : DB) : CreateResult σ :=
  let session := Session.zero
  let tokenTtl := 24 * Hour
  match CreateUserToken u.ID tokenTtl g with
  | (Except.error err, g1) => { session := session, err := some err, gen := g1, db := db }
  | (Except.ok token, g1) =>
    let session : Session :=
      { Session.zero with
        UserId := u.ID
        Token := token
        Provider := "LOCAL"
        ExpiresAt := Time.Add now tokenTtl }
    let r := db.insertSession c session
    match r.err with
    | some err => { session := r.session, err := some err, gen := g1, db := r.db }
    | none => { session := r.session, err := none, gen := g1, db := r.db }

/-- Go `(u *User) ComparePassword`.  `CompareHashAndPassword` is bcrypt's
comparison of a stored hash with a plaintext (`none` when they match). -/
def User.ComparePassword (CompareHashAndPassword : String → String → Option Error)
    (u : User) (pass : String) : Option Error :=
  match CompareHashAndPassword u.Password pass with
  | some _ => some errUserNotFound
  | none => none

/-- The state after `UpdateLastTimeActive`: the session behind the receiver
pointer, the returned error and the table. -/
structure TouchResult where
  session : Session
  err : Option Error
  db : DB
  deriving DecidableEq, Repr

/-- Go `(s *Session) UpdateLastTimeActive`. -/
def Session.UpdateLastTimeActive (now : Time) (c : Exec) (s : Session) (db : DB) :
    TouchResult :=
  let s := { s with LastTimeActive := now }
  match db.updateLastTimeActive c s.ID s.LastTimeActive with
  | Except.error err => { session := s, err := some err, db := db }
  | Except.ok db1 => { session := s, err := none, db := db1 }

/-- Go `SelectUserByUsername`. -/
def SelectUserByUsername (c : Exec) (db : DB) (username : String) : Except Error User :=
  match db.scanUserByUsername c username with
  | Except.error err => Except.error err
  | Except.ok user => Except.ok user

/-- Go `SelectSessionByToken`. -/
def SelectSessionByToken (now : Time) (c : Exec) (db : DB) (token : String) :
    Except Error Session :=
  match db.scanSessionByToken c token with
  | Except.error err => Except.error err
  | Except.ok session =>
    if Time.Before session.ExpiresAt now then
      Except.error (Error.errorsNew "session expired")
    else
      Except.ok session

/-! ## `org/init.go` -/

/-- The middleware that can sit in front of a handler: the two of this
package (`middleware.User` resolves an identity when a valid token is sent,
`middleware.MustUser` refuses a request without one) and whatever the
application installed on its base groups. -/
inductive Middleware where
  | User
  | MustUser
  | base (ident : String)
  deriving DecidableEq, Repr

/-- The handlers that `init` registers. -/
inductive Handler where
  | HealthCheckHandler
  | Create
  | Login
  | Profile
  | Current
  | Update
  | Follow
  | Unfollow
  deriving DecidableEq, Repr

/-- HTTP methods used by the route table. -/
inductive Method where
  | GET
  | POST
  | PUT
  | DELETE
  deriving DecidableEq, Repr

/-- A bunrouter group: a path that goes in front of every route registered on
it and the stack of middleware, outermost first. -/
structure Group where
  path : String
  stack : List Middleware
  deriving DecidableEq, Repr

/-- One entry of the router's table. -/
structure Route where
  method : Method
  path : String
  stack : List Middleware
  handler : Handler
  deriving DecidableEq, Repr

/-- The method `g.WithMiddleware m`: a new group on the same path whose stack
is a copy of the stack of `g` with `m` added at the end. -/
def Group.WithMiddleware (g : Group) (m : Middleware) : Group :=
  { g with stack := g.stack ++ [m] }

/-- Registration of a handler on a group: the route is entered in the router's
table under the group's path followed by `path`, wrapped in the stack the
group has at that moment. -/
def Group.Handle (g : Group) (method : Method) (path : String) (h : Handler)
    (table : List Route) : List Route :=
  table ++ [{ method := method, path := g.path ++ path, stack := g.stack, handler := h }]

/-- The method `g.GET`. -/
def Group.GET (g : Group) (path : String) (h : Handler) (table : List Route) : List Route :=
  g.Handle Method.GET path h table

/-- The method `g.POST`. -/
def Group.POST (g : Group) (path : String) (h : Handler) (table : List Route) : List Route :=
  g.Handle Method.POST path h table

/-- The method `g.PUT`. -/
def Group.PUT (g : Group) (path : String) (h : Handler) (table : List Route) : List Route :=
  g.Handle Method.PUT path h table

/-- The method `g.DELETE`. -/
def Group.DELETE (g : Group) (path : String) (h : Handler) (table : List Route) :
    List Route :=
  g.Handle Method.DELETE path h table

/-- The start-up hook `org.initRoutes` that `init` registers.  `router` is
`app.Router()` and `api` is `app.APIRouter()`, both supplied by the
application; `table` is the router's table before the hook runs. -/
def initRoutes (router api : Group) (table : List Route) : List Route :=
  let table := router.GET "/health" Handler.HealthCheckHandler table
  let g := api.WithMiddleware Middleware.User
  let table := g.POST "/users" Handler.Create table
  let table := g.POST "/users/login" Handler.Login table
  let table := g.GET "/profiles/:username" Handler.Profile table
  let g := g.WithMiddleware Middleware.MustUser
  let table := g.GET "/user/" Handler.Current table
  let table := g.PUT "/user/" Handler.Update table
  let table := g.POST "/profiles/:username/follow" Handler.Follow table
  let table := g.DELETE "/profiles/:username/follow" Handler.Unfollow table
  table

/-- The authentication middleware in front of a route, outermost first. -/
def Route.auth (r : Route) : List Middleware :=
  r.stack.filter (fun m => decide (m = Middleware.User ∨ m = Middleware.MustUser))

/-- The routes of a table registered for a method and a path. -/
def lookup (table : List Route) (method : Method) (path : String) : List Route :=
  table.filter (fun r => decide (r.method = method ∧ r.path = path))

/-! ## Runs of calls -/

/-- The arguments of one `CreateSession` call. -/
structure CreateCall where
  u : User
  now : Time
  c : Exec

/-- What a run of `CreateSession` calls leaves behind: the pair each call
returned, in call order, then the generator state and the table. -/
structure CreateRun (σ : Type) where
  results : List (Session × Option Error)
  gen : σ
  db : DB

/-- A run of `CreateSession` calls, each on the table the one before left. -/
def createAll {σ : Type} (CreateUserToken : Nat → Duration → σ → Except Error String × σ) :
    List CreateCall → σ → DB → CreateRun σ
  | [], g, db => { results := [], gen := g, db := db }
  | k :: ks, g, db =>
    let r := User.CreateSession CreateUserToken k.now k.c k.u g db
    let rest := createAll CreateUserToken ks r.gen r.db
    { rest with results := (r.session, r.err) :: rest.results }

/-- The tokens of the calls of a run that returned without error. -/
def issued (results : List (Session × Option Error)) : List String :=
  (results.filter (fun p => p.2.isNone)).map (fun p => p.1.Token)

/-- Every field of a session other than `LastTimeActive`. -/
def Session.fixed (r : Session) :
    Nat × Nat × String × String × Time × List (String × String) :=
  (r.ID, r.UserId, r.Token, r.Provider, r.ExpiresAt, r.DeviceInfo)

/-- The arguments of one `UpdateLastTimeActive` call. -/
structure TouchCall where
  s : Session
  now : Time
  c : Exec

/-- A run of `UpdateLastTimeActive` calls, each on the table the one before
left. -/
def touchAll : List TouchCall → DB → DB
  | [], db => db
  | k :: ks, db => touchAll ks (Session.UpdateLastTimeActive k.now k.c k.s db).db

/-! ## Values used to evaluate the definitions -/

/-- A stand-in for bcrypt in evaluations: the stored hash is the password
itself. -/
def plainCompare (hash pass : String) : Option Error :=
  if hash = pass then none
  else some (Error.errorsNew "hashedPassword is not the hash of the given password")

/-- A stand-in token generator in evaluations: it hands out the tokens of a
list one after the other. -/
def listTokens (_userId : Nat) (_ttl : Duration) : List String → Except Error String × List String
  | [] => (Except.error (Error.errorsNew "no entropy"), [])
  | t :: ts => (Except.ok t, ts)

/-- A registered user. -/
def ana : User :=
  { ID := 7, Name := "Ana", LastName := "", Username := "ana", Email := "ana@example.org",
    Image := "", Password := "secret1" }

/-- A stored session of `ana` that expires at instant 1000. -/
def anaSession : Session :=
  { ID := 1, UserId := 7, Token := "T1", Provider := "LOCAL", LastTimeActive := 10000,
    ExpiresAt := 1000, DeviceInfo := [] }

/-- A second stored session. -/
def otherSession : Session :=
  { ID := 2, UserId := 8, Token := "T2", Provider := "LOCAL", LastTimeActive := 20000,
    ExpiresAt := 5000, DeviceInfo := [("os", "linux")] }

/-- A database holding `ana` and the two sessions. -/
def db0 : DB := { users := [ana], sessions := [anaSession, otherSession], sessionsSeq := 2 }

/-- A statement that reaches the engine, at engine time 50. -/
def reach : Exec := { fault := none, currentTimestamp := 50000 }

/-- A statement whose round trip fails. -/
def broken : Exec :=
  { fault := some (Error.engine "connection refused"), currentTimestamp := 50000 }

end Org

namespace Org

/-! ## Facts about the table -/

theorem scanSessionByToken_fault (c : Exec) (db : DB) (token : String) (e : Error)
    (h : c.fault = some e) : db.scanSessionByToken c token = Except.error e := by
  simp [DB.scanSessionByToken, h]

theorem scanSessionByToken_absent (c : Exec) (db : DB) (token : String)
    (hc : c.fault = none) (h : token ∉ db.tokens) :
    db.scanSessionByToken c token = Except.error Error.noRows := by
  have hnone : db.sessions.find? (fun r => decide (r.Token = token)) = none := by
    rw [List.find?_eq_none]
    intro r hr
    have : r.Token ≠ token := by
      intro heq
      exact h (by simpa [DB.tokens] using ⟨r, hr, heq⟩)
    simpa using this
  simp [DB.scanSessionByToken, hc, hnone]

theorem select_of_scan_error (now : Time) (c : Exec) (db : DB) (token : String) (e : Error)
    (h : db.scanSessionByToken c token = Except.error e) :
    SelectSessionByToken now c db token = Except.error e := by
  unfold SelectSessionByToken
  rw [h]

/-! ## `SelectSessionByToken` -/

/-- C1, the claim as written fails: at the instant `now = ExpiresAt` (here
1000) the stored session is found and `SelectSessionByToken` returns it; it
does not fail with the session-expired error. -/
theorem SelectSessionByToken_at_expiry_returns :
    db0.scanSessionByToken reach "T1" = Except.ok anaSession ∧
    anaSession.ExpiresAt = 1000 ∧
    SelectSessionByToken 1000 reach db0 "T1" = Except.ok anaSession ∧
    SelectSessionByToken 1000 reach db0 "T1" ≠
      Except.error (Error.errorsNew "session expired") ∧
    ¬ (SelectSessionByToken 1000 reach db0 "T1" = Except.ok anaSession ↔
        (1000 : Time) < anaSession.ExpiresAt) := by
  refine ⟨rfl, rfl, rfl, ?_, ?_⟩
  · intro h
    have h2 : SelectSessionByToken 1000 reach db0 "T1" = Except.ok anaSession := rfl
    rw [h2] at h
    cases h
  · intro h
    have h2 : SelectSessionByToken 1000 reach db0 "T1" = Except.ok anaSession := rfl
    have h3 := h.mp h2
    have h4 : anaSession.ExpiresAt = 1000 := rfl
    rw [h4] at h3
    exact absurd h3 (lt_irrefl _)

/-- C1, amended: for a stored session `s` found by its token and every
instant `now`, `SelectSessionByToken` returns `s` if and only if `now` is not
later than `s.ExpiresAt`; when `now` is strictly later it fails with the
session-expired error; it never returns a session other than the one found. -/
theorem SelectSessionByToken_valid_iff (now : Time) (c : Exec) (db : DB) (token : String)
    (s : Session) (hfound : db.scanSessionByToken c token = Except.ok s) :
    (SelectSessionByToken now c db token = Except.ok s ↔ now ≤ s.ExpiresAt) ∧
    (s.ExpiresAt < now →
      SelectSessionByToken now c db token =
        Except.error (Error.errorsNew "session expired")) ∧
    (now = s.ExpiresAt → SelectSessionByToken now c db token = Except.ok s) ∧
    (∀ s1, SelectSessionByToken now c db token = Except.ok s1 → s1 = s) := by
  unfold SelectSessionByToken
  rw [hfound]
  simp only [Time.Before]
  by_cases hlt : s.ExpiresAt < now
  · have hnle : ¬ now ≤ s.ExpiresAt := not_le.mpr hlt
    have hne : now ≠ s.ExpiresAt := fun h => hnle (le_of_eq h)
    simp [hlt, hnle, hne]
  · have hle : now ≤ s.ExpiresAt := not_lt.mp hlt
    simp only [hlt, decide_False, Bool.false_eq_true, if_false]
    refine ⟨⟨fun _ => hle, fun _ => trivial⟩, fun h => absurd h (by simp), fun _ => trivial, ?_⟩
    intro s1 h
    cases h
    rfl

theorem SelectSessionByToken_valid_iff_witness :
    db0.scanSessionByToken reach "T1" = Except.ok anaSession ∧
    ((SelectSessionByToken 1000 reach db0 "T1" = Except.ok anaSession ↔
        (1000 : Time) ≤ anaSession.ExpiresAt) ∧
      (anaSession.ExpiresAt < (1000 : Time) →
        SelectSessionByToken 1000 reach db0 "T1" =
          Except.error (Error.errorsNew "session expired")) ∧
      ((1000 : Time) = anaSession.ExpiresAt →
        SelectSessionByToken 1000 reach db0 "T1" = Except.ok anaSession) ∧
      (∀ s1, SelectSessionByToken 1000 reach db0 "T1" = Except.ok s1 → s1 = anaSession)) :=
  ⟨rfl, SelectSessionByToken_valid_iff 1000 reach db0 "T1" anaSession rfl⟩

/-- C2: when the lookup by token yields an error (no row holds the token, or
the round trip failed), `SelectSessionByToken` returns that very error and no
session, at every instant `now`. -/
theorem SelectSessionByToken_lookup_error (now : Time) (c : Exec) (db : DB) (token : String)
    (e : Error) (hmiss : db.scanSessionByToken c token = Except.error e) :
    SelectSessionByToken now c db token = Except.error e ∧
    ∀ s, SelectSessionByToken now c db token ≠ Except.ok s := by
  have h := select_of_scan_error now c db token e hmiss
  refine ⟨h, ?_⟩
  intro s hs
  rw [h] at hs
  cases hs

theorem SelectSessionByToken_lookup_error_witness :
    db0.scanSessionByToken reach "T9" = Except.error Error.noRows ∧
    (SelectSessionByToken 1 reach db0 "T9" = Except.error Error.noRows ∧
      ∀ s, SelectSessionByToken 1 reach db0 "T9" ≠ Except.ok s) :=
  ⟨rfl, SelectSessionByToken_lookup_error 1 reach db0 "T9" Error.noRows rfl⟩

/-! ## `ComparePassword` -/

/-- C5, the claim as written fails: a lookup of the username `"nobody"`,
which no stored user has, yields the engine's no-rows error, while a wrong
password for `ana` yields `errUserNotFound`; the two error values differ, so
the two failures can be told apart by their error. -/
theorem lookup_error_differs_from_wrong_password :
    (∀ r ∈ db0.users, r.Username ≠ "nobody") ∧
    SelectUserByUsername reach db0 "nobody" = Except.error Error.noRows ∧
    plainCompare ana.Password "wrong" ≠ none ∧
    User.ComparePassword plainCompare ana "wrong" = some errUserNotFound ∧
    Error.noRows ≠ errUserNotFound ∧
    SelectUserByUsername reach db0 "nobody" ≠ Except.error errUserNotFound := by
  refine ⟨by decide, rfl, by decide, by decide, by decide, ?_⟩
  intro h
  have h2 : SelectUserByUsername reach db0 "nobody" = Except.error Error.noRows := rfl
  rw [h2] at h
  cases h

/-- C5, amended: whenever the hash comparison reports an error for the user
record and the plaintext, `ComparePassword` fails with `errUserNotFound`, the
package's user-not-found error, whatever the comparison's own error was;
whenever the comparison reports a match it returns no error; so any two
failed checks return the same error value.  A lookup by
`SelectUserByUsername` hands on the error of the engine unchanged: for a
username that no stored user has and a statement that reaches the engine
that is the no-rows error, a value other than `errUserNotFound`. -/
theorem ComparePassword_mismatch_is_user_not_found
    (CompareHashAndPassword : String → String → Option Error) (u : User) (pass : String)
    (hbad : CompareHashAndPassword u.Password pass ≠ none) :
    User.ComparePassword CompareHashAndPassword u pass = some errUserNotFound ∧
    (∀ (u1 : User) (p1 : String), CompareHashAndPassword u1.Password p1 = none →
      User.ComparePassword CompareHashAndPassword u1 p1 = none) ∧
    (∀ (u1 : User) (p1 : String), CompareHashAndPassword u1.Password p1 ≠ none →
      User.ComparePassword CompareHashAndPassword u1 p1 =
        User.ComparePassword CompareHashAndPassword u pass) ∧
    (∀ (c : Exec) (db : DB) (username : String) (e : Error),
      db.scanUserByUsername c username = Except.error e →
        SelectUserByUsername c db username = Except.error e) ∧
    (∀ (c : Exec) (db : DB) (username : String),
      c.fault = none → (∀ r ∈ db.users, r.Username ≠ username) →
        SelectUserByUsername c db username = Except.error Error.noRows ∧
        some Error.noRows ≠ User.ComparePassword CompareHashAndPassword u pass) := by
  have key : ∀ (u1 : User) (p1 : String), CompareHashAndPassword u1.Password p1 ≠ none →
      User.ComparePassword CompareHashAndPassword u1 p1 = some errUserNotFound := by
    intro u1 p1 h
    unfold User.ComparePassword
    cases hc : CompareHashAndPassword u1.Password p1 with
    | none => exact absurd hc h
    | some e => rfl
  have hscan : ∀ (c : Exec) (db : DB) (username : String) (e : Error),
      db.scanUserByUsername c username = Except.error e →
        SelectUserByUsername c db username = Except.error e := by
    intro c db username e h
    unfold SelectUserByUsername
    rw [h]
  refine ⟨key u pass hbad, ?_, ?_, hscan, ?_⟩
  · intro u1 p1 h
    unfold User.ComparePassword
    rw [h]
  · intro u1 p1 h
    rw [key u1 p1 h, key u pass hbad]
  · intro c db username hc habsent
    have hnone : db.users.find? (fun r => decide (r.Username = username)) = none := by
      rw [List.find?_eq_none]
      intro r hr
      simpa using habsent r hr
    refine ⟨hscan c db username Error.noRows ?_, ?_⟩
    · simp [DB.scanUserByUsername, hc, hnone]
    · rw [key u pass hbad]
      decide

theorem ComparePassword_mismatch_is_user_not_found_witness :
    plainCompare ana.Password "secret2" ≠ none ∧
    User.ComparePassword plainCompare ana "secret2" = some errUserNotFound ∧
    (reach.fault = none ∧ ∀ r ∈ db0.users, r.Username ≠ "nobody") ∧
    SelectUserByUsername reach db0 "nobody" = Except.error Error.noRows :=
  ⟨by decide,
    (ComparePassword_mismatch_is_user_not_found plainCompare ana "secret2" (by decide)).1,
    ⟨rfl, by decide⟩,
    ((ComparePassword_mismatch_is_user_not_found plainCompare ana "secret2"
      (by decide)).2.2.2.2 reach db0 "nobody" rfl (by decide)).1⟩

/-- C6, the claim as written fails: for `ana` and a wrong password the check
fails with `errUserNotFound`, whose entry in the taxonomy is `UserNotFound`
and not `InvalidCredentials`. -/
theorem ComparePassword_wrong_password_not_InvalidCredentials :
    plainCompare ana.Password "wrong" ≠ none ∧
    User.ComparePassword plainCompare ana "wrong" = some errUserNotFound ∧
    (User.ComparePassword plainCompare ana "wrong").bind Error.failure =
      some Failure.UserNotFound ∧
    (User.ComparePassword plainCompare ana "wrong").bind Error.failure ≠
      some Failure.InvalidCredentials := by
  refine ⟨by decide, by decide, by decide, by decide⟩

/-- C6, amended: for every user record and every plaintext that does not
match the stored hash, `ComparePassword` fails with the failure
`UserNotFound` (the value `errUserNotFound`); on no input does it fail with
an error whose entry in the taxonomy is `InvalidCredentials`. -/
theorem ComparePassword_mismatch_failure
    (CompareHashAndPassword : String → String → Option Error) (u : User) (pass : String)
    (hbad : CompareHashAndPassword u.Password pass ≠ none) :
    (User.ComparePassword CompareHashAndPassword u pass).bind Error.failure =
      some Failure.UserNotFound ∧
    ∀ (u1 : User) (p1 : String) (e : Error),
      User.ComparePassword CompareHashAndPassword u1 p1 = some e →
        e.failure ≠ some Failure.InvalidCredentials := by
  constructor
  · unfold User.ComparePassword
    cases hc : CompareHashAndPassword u.Password pass with
    | none => exact absurd hc hbad
    | some e => rfl
  · intro u1 p1 e h
    unfold User.ComparePassword at h
    cases hc : CompareHashAndPassword u1.Password p1 with
    | none => rw [hc] at h; cases h
    | some e1 =>
      rw [hc] at h
      cases h
      decide

theorem ComparePassword_mismatch_failure_witness :
    plainCompare ana.Password "wrong" ≠ none ∧
    ((User.ComparePassword plainCompare ana "wrong").bind Error.failure =
        some Failure.UserNotFound ∧
      ∀ (u1 : User) (p1 : String) (e : Error),
        User.ComparePassword plainCompare u1 p1 = some e →
          e.failure ≠ some Failure.InvalidCredentials) :=
  ⟨by decide, ComparePassword_mismatch_failure plainCompare ana "wrong" (by decide)⟩

/-! ## `UpdateLastTimeActive` -/

/-- C7, the claim as written fails: when the update's round trip fails,
`UpdateLastTimeActive` returns that failure to its caller. -/
theorem UpdateLastTimeActive_returns_failure :
    db0.updateLastTimeActive broken anaSession.ID 77 =
      Except.error (Error.engine "connection refused") ∧
    (Session.UpdateLastTimeActive 77 broken anaSession db0).err =
      some (Error.engine "connection refused") ∧
    (Session.UpdateLastTimeActive 77 broken anaSession db0).err ≠ none := by
  refine ⟨rfl, rfl, ?_⟩
  intro h
  have h2 : (Session.UpdateLastTimeActive 77 broken anaSession db0).err =
      some (Error.engine "connection refused") := rfl
  rw [h2] at h
  cases h

/-- C7, amended: when the persistence update of the last-active timestamp
fails with error `e`, `UpdateLastTimeActive` returns `e` to its caller; the
table is left as it was and the session in memory carries the new instant. -/
theorem UpdateLastTimeActive_propagates (now : Time) (c : Exec) (s : Session) (db : DB)
    (e : Error) (hfail : db.updateLastTimeActive c s.ID now = Except.error e) :
    (Session.UpdateLastTimeActive now c s db).err = some e ∧
    (Session.UpdateLastTimeActive now c s db).db = db ∧
    (Session.UpdateLastTimeActive now c s db).session = { s with LastTimeActive := now } := by
  unfold Session.UpdateLastTimeActive
  simp [hfail]

theorem UpdateLastTimeActive_propagates_witness :
    db0.updateLastTimeActive broken anaSession.ID 77 =
      Except.error (Error.engine "connection refused") ∧
    ((Session.UpdateLastTimeActive 77 broken anaSession db0).err =
        some (Error.engine "connection refused") ∧
      (Session.UpdateLastTimeActive 77 broken anaSession db0).db = db0 ∧
      (Session.UpdateLastTimeActive 77 broken anaSession db0).session =
        { anaSession with LastTimeActive := 77 }) :=
  ⟨rfl, UpdateLastTimeActive_propagates 77 broken anaSession db0
    (Error.engine "connection refused") rfl⟩

/-! ## The route table -/

theorem auth_filter_base (stack : List Middleware)
    (h : ∀ m ∈ stack, m ≠ Middleware.User ∧ m ≠ Middleware.MustUser) :
    stack.filter (fun m => decide (m = Middleware.User ∨ m = Middleware.MustUser)) = [] := by
  rw [List.filter_eq_nil_iff]
  intro m hm
  have := h m hm
  simp [this.1, this.2]

/-- C9, the claim as written fails: with base groups that carry no middleware
at all, the routes `POST /users` and `POST /users/login` are each registered
once, behind the optional-identity middleware `User`; they are not free of
authentication middleware. -/
theorem initRoutes_users_routes_carry_User :
    (lookup (initRoutes { path := "", stack := [] } { path := "", stack := [] } [])
        Method.POST "/users").map Route.stack = [[Middleware.User]] ∧
    (lookup (initRoutes { path := "", stack := [] } { path := "", stack := [] } [])
        Method.POST "/users/login").map Route.stack = [[Middleware.User]] ∧
    (lookup (initRoutes { path := "", stack := [] } { path := "", stack := [] } [])
        Method.POST "/users").map Route.auth ≠ [[]] ∧
    (lookup (initRoutes { path := "", stack := [] } { path := "", stack := [] } [])
        Method.POST "/users/login").map Route.auth ≠ [[]] := by
  refine ⟨by decide, by decide, by decide, by decide⟩

/-- C9, amended: the start-up hook adds exactly eight routes, in source
order, each under the path of the group it is registered on.  When the base
groups carry no authentication middleware, `GET /user/`, `PUT /user/`,
`POST /profiles/:username/follow` and `DELETE /profiles/:username/follow` are
behind `MustUser` preceded by `User`; `GET /profiles/:username`, `POST /users`
and `POST /users/login` are behind `User` only; `GET /health` is behind no
authentication middleware. -/
theorem initRoutes_gating (router api : Group) (table : List Route)
    (hr : ∀ m ∈ router.stack, m ≠ Middleware.User ∧ m ≠ Middleware.MustUser)
    (ha : ∀ m ∈ api.stack, m ≠ Middleware.User ∧ m ≠ Middleware.MustUser) :
    initRoutes router api table = table ++
      [ { method := Method.GET, path := router.path ++ "/health", stack := router.stack,
          handler := Handler.HealthCheckHandler },
        { method := Method.POST, path := api.path ++ "/users",
          stack := api.stack ++ [Middleware.User], handler := Handler.Create },
        { method := Method.POST, path := api.path ++ "/users/login",
          stack := api.stack ++ [Middleware.User], handler := Handler.Login },
        { method := Method.GET, path := api.path ++ "/profiles/:username",
          stack := api.stack ++ [Middleware.User], handler := Handler.Profile },
        { method := Method.GET, path := api.path ++ "/user/",
          stack := api.stack ++ [Middleware.User, Middleware.MustUser],
          handler := Handler.Current },
        { method := Method.PUT, path := api.path ++ "/user/",
          stack := api.stack ++ [Middleware.User, Middleware.MustUser],
          handler := Handler.Update },
        { method := Method.POST, path := api.path ++ "/profiles/:username/follow",
          stack := api.stack ++ [Middleware.User, Middleware.MustUser],
          handler := Handler.Follow },
        { method := Method.DELETE, path := api.path ++ "/profiles/:username/follow",
          stack := api.stack ++ [Middleware.User, Middleware.MustUser],
          handler := Handler.Unfollow } ] ∧
    (initRoutes router api []).map (fun r => (r.method, r.path, r.auth)) =
      [ (Method.GET, router.path ++ "/health", []),
        (Method.POST, api.path ++ "/users", [Middleware.User]),
        (Method.POST, api.path ++ "/users/login", [Middleware.User]),
        (Method.GET, api.path ++ "/profiles/:username", [Middleware.User]),
        (Method.GET, api.path ++ "/user/", [Middleware.User, Middleware.MustUser]),
        (Method.PUT, api.path ++ "/user/", [Middleware.User, Middleware.MustUser]),
        (Method.POST, api.path ++ "/profiles/:username/follow",
          [Middleware.User, Middleware.MustUser]),
        (Method.DELETE, api.path ++ "/profiles/:username/follow",
          [Middleware.User, Middleware.MustUser]) ] := by
  have h1 := auth_filter_base router.stack hr
  have h2 := auth_filter_base api.stack ha
  constructor
  · simp [initRoutes, Group.GET, Group.POST, Group.PUT, Group.DELETE, Group.Handle,
      Group.WithMiddleware]
  · simp [initRoutes, Group.GET, Group.POST, Group.PUT, Group.DELETE, Group.Handle,
      Group.WithMiddleware, Route.auth, List.filter_append, h1, h2]
    exact ⟨hr, ha⟩

theorem initRoutes_gating_witness :
    (∀ m ∈ ({ path := "", stack := [Middleware.base "reqlog"] } : Group).stack,
        m ≠ Middleware.User ∧ m ≠ Middleware.MustUser) ∧
    (∀ m ∈ ({ path := "/api", stack := [Middleware.base "cors"] } : Group).stack,
        m ≠ Middleware.User ∧ m ≠ Middleware.MustUser) ∧
    (initRoutes { path := "", stack := [Middleware.base "reqlog"] }
        { path := "/api", stack := [Middleware.base "cors"] } []).map
        (fun r => (r.method, r.path, r.auth)) =
      [ (Method.GET, "" ++ "/health", []),
        (Method.POST, "/api" ++ "/users", [Middleware.User]),
        (Method.POST, "/api" ++ "/users/login", [Middleware.User]),
        (Method.GET, "/api" ++ "/profiles/:username", [Middleware.User]),
        (Method.GET, "/api" ++ "/user/", [Middleware.User, Middleware.MustUser]),
        (Method.PUT, "/api" ++ "/user/", [Middleware.User, Middleware.MustUser]),
        (Method.POST, "/api" ++ "/profiles/:username/follow",
          [Middleware.User, Middleware.MustUser]),
        (Method.DELETE, "/api" ++ "/profiles/:username/follow",
          [Middleware.User, Middleware.MustUser]) ] :=
  ⟨by decide, by decide,
    (initRoutes_gating { path := "", stack := [Middleware.base "reqlog"] }
      { path := "/api", stack := [Middleware.base "cors"] } [] (by decide) (by decide)).2⟩

/-! ## `CreateSession` -/

theorem rowFor_Token (c : Exec) (db : DB) (s : Session) : (db.rowFor c s).Token = s.Token :=
  rfl

theorem returned_Token (c : Exec) (db : DB) (s : Session) :
    (db.returned c s).Token = s.Token :=
  rfl

theorem insertSession_ok (c : Exec) (db : DB) (s : Session)
    (h : (db.insertSession c s).err = none) :
    (db.insertSession c s).session = db.returned c s ∧
    (db.insertSession c s).db.sessions = db.sessions ++ [db.rowFor c s] ∧
    s.Token ∉ db.tokens := by
  unfold DB.insertSession at h ⊢
  cases hf : c.fault with
  | some e => simp [hf] at h
  | none =>
    simp only [hf] at h ⊢
    by_cases h1 : (db.sessions.any (fun r => decide (r.ID = (db.rowFor c s).ID))) = true
    · simp [h1] at h
    · by_cases h2 : (db.sessions.any (fun r => decide (r.Token = (db.rowFor c s).Token))) = true
      · simp [h1, h2] at h
      · simp only [h1, h2, if_false, Bool.false_eq_true]
        refine ⟨trivial, trivial, ?_⟩
        intro hmem
        apply h2
        rw [List.any_eq_true]
        simp only [DB.tokens, List.mem_map] at hmem
        obtain ⟨r, hr, hrt⟩ := hmem
        exact ⟨r, hr, by simpa [rowFor_Token] using hrt⟩

theorem insertSession_err (c : Exec) (db : DB) (s : Session)
    (h : (db.insertSession c s).err ≠ none) :
    (db.insertSession c s).session = s ∧
    (db.insertSession c s).db.sessions = db.sessions := by
  unfold DB.insertSession at h ⊢
  cases hf : c.fault with
  | some e => simp
  | none =>
    simp only [hf] at h ⊢
    by_cases h1 : (db.sessions.any (fun r => decide (r.ID = (db.rowFor c s).ID))) = true
    · simp [h1]
    · by_cases h2 : (db.sessions.any (fun r => decide (r.Token = (db.rowFor c s).Token))) = true
      · simp [h1, h2]
      · simp [h1, h2] at h

theorem insertSession_dup (c : Exec) (db : DB) (s : Session) (hc : c.fault = none)
    (hdup : s.Token ∈ db.tokens) :
    (db.insertSession c s).err = some (Error.uniqueViolation "sessions_pkey") ∨
    (db.insertSession c s).err = some (Error.uniqueViolation "sessions_token_key") := by
  have h2 : (db.sessions.any (fun r => decide (r.Token = (db.rowFor c s).Token))) = true := by
    rw [List.any_eq_true]
    simp only [DB.tokens, List.mem_map] at hdup
    obtain ⟨r, hr, hrt⟩ := hdup
    exact ⟨r, hr, by simpa [rowFor_Token] using hrt⟩
  unfold DB.insertSession
  simp only [hc]
  by_cases h1 : (db.sessions.any (fun r => decide (r.ID = (db.rowFor c s).ID))) = true
  · left; simp [h1]
  · right; simp [h1, h2]

theorem CreateSession_of_token {σ : Type}
    (CreateUserToken : Nat → Duration → σ → Except Error String × σ)
    (now : Time) (c : Exec) (u : User) (g : σ) (db : DB) (token : String) (g1 : σ)
    (hgen : CreateUserToken u.ID (24 * Hour) g = (Except.ok token, g1)) :
    (User.CreateSession CreateUserToken now c u g db).session =
      (db.insertSession c { Session.zero with
        UserId := u.ID, Token := token, Provider := "LOCAL",
        ExpiresAt := Time.Add now (24 * Hour) }).session ∧
    (User.CreateSession CreateUserToken now c u g db).err =
      (db.insertSession c { Session.zero with
        UserId := u.ID, Token := token, Provider := "LOCAL",
        ExpiresAt := Time.Add now (24 * Hour) }).err ∧
    (User.CreateSession CreateUserToken now c u g db).gen = g1 ∧
    (User.CreateSession CreateUserToken now c u g db).db =
      (db.insertSession c { Session.zero with
        UserId := u.ID, Token := token, Provider := "LOCAL",
        ExpiresAt := Time.Add now (24 * Hour) }).db := by
  unfold User.CreateSession
  simp only [hgen]
  cases he : (db.insertSession c { Session.zero with
        UserId := u.ID, Token := token, Provider := "LOCAL",
        ExpiresAt := Time.Add now (24 * Hour) }).err <;> simp [he]

theorem CreateSession_of_token_error {σ : Type}
    (CreateUserToken : Nat → Duration → σ → Except Error String × σ)
    (now : Time) (c : Exec) (u : User) (g : σ) (db : DB) (e : Error) (g1 : σ)
    (hgen : CreateUserToken u.ID (24 * Hour) g = (Except.error e, g1)) :
    (User.CreateSession CreateUserToken now c u g db).session = Session.zero ∧
    (User.CreateSession CreateUserToken now c u g db).err = some e ∧
    (User.CreateSession CreateUserToken now c u g db).gen = g1 ∧
    (User.CreateSession CreateUserToken now c u g db).db = db := by
  unfold User.CreateSession
  simp [hgen]

/-- One call, seen from the table: either it failed and the stored rows are
as before, or it succeeded and one row was added, which holds the token of
the returned session, a token that no stored row held. -/
theorem CreateSession_step {σ : Type}
    (CreateUserToken : Nat → Duration → σ → Except Error String × σ)
    (now : Time) (c : Exec) (u : User) (g : σ) (db : DB) :
    ((User.CreateSession CreateUserToken now c u g db).err ≠ none ∧
      (User.CreateSession CreateUserToken now c u g db).db.sessions = db.sessions) ∨
    ((User.CreateSession CreateUserToken now c u g db).err = none ∧
      (User.CreateSession CreateUserToken now c u g db).db.tokens =
        db.tokens ++ [(User.CreateSession CreateUserToken now c u g db).session.Token] ∧
      (User.CreateSession CreateUserToken now c u g db).session.Token ∉ db.tokens) := by
  rcases hgen : CreateUserToken u.ID (24 * Hour) g with ⟨res, g1⟩
  cases res with
  | error e =>
    obtain ⟨_, h2, _, h4⟩ := CreateSession_of_token_error CreateUserToken now c u g db e g1 hgen
    left
    exact ⟨by rw [h2]; simp, by rw [h4]⟩
  | ok token =>
    obtain ⟨h1, h2, _, h4⟩ := CreateSession_of_token CreateUserToken now c u g db token g1 hgen
    rw [h1, h2, h4]
    cases he : (db.insertSession c { Session.zero with
        UserId := u.ID, Token := token, Provider := "LOCAL",
        ExpiresAt := Time.Add now (24 * Hour) }).err with
    | some e =>
      left
      refine ⟨by simp, ?_⟩
      exact (insertSession_err c db _ (by rw [he]; simp)).2
    | none =>
      right
      obtain ⟨a, b, d⟩ := insertSession_ok c db _ he
      refine ⟨rfl, ?_, ?_⟩
      · rw [a, returned_Token]
        simp [DB.tokens, b, rowFor_Token]
      · rw [a, returned_Token]
        exact d

/-- C4: when token generation yields `token` and the insert succeeds,
`CreateSession` returns no error and a session whose `UserId` is the user's
id, whose `Token` is exactly `token`, whose `Provider` is `"LOCAL"` and whose
`ExpiresAt` is the instant of issuance plus 24 hours, strictly later than
that instant; the table gained one row, which has the id, user id, token and
provider of the returned session and its `ExpiresAt` kept to the
microsecond. -/
theorem CreateSession_fields {σ : Type}
    (CreateUserToken : Nat → Duration → σ → Except Error String × σ)
    (now : Time) (c : Exec) (u : User) (g : σ) (db : DB) (token : String) (g1 : σ)
    (hgen : CreateUserToken u.ID (24 * Hour) g = (Except.ok token, g1))
    (hins : (db.insertSession c { Session.zero with
        UserId := u.ID, Token := token, Provider := "LOCAL",
        ExpiresAt := Time.Add now (24 * Hour) }).err = none) :
    (User.CreateSession CreateUserToken now c u g db).err = none ∧
    (User.CreateSession CreateUserToken now c u g db).session.UserId = u.ID ∧
    (User.CreateSession CreateUserToken now c u g db).session.Token = token ∧
    (User.CreateSession CreateUserToken now c u g db).session.Provider = "LOCAL" ∧
    (User.CreateSession CreateUserToken now c u g db).session.ExpiresAt =
      now + 86400000000000 ∧
    now < (User.CreateSession CreateUserToken now c u g db).session.ExpiresAt ∧
    (∃ row : Session,
      (User.CreateSession CreateUserToken now c u g db).db.sessions = db.sessions ++ [row] ∧
      row.ID = (User.CreateSession CreateUserToken now c u g db).session.ID ∧
      row.UserId = u.ID ∧ row.Token = token ∧ row.Provider = "LOCAL" ∧
      row.ExpiresAt = Time.micro (now + 86400000000000)) := by
  obtain ⟨h1, h2, _, h4⟩ := CreateSession_of_token CreateUserToken now c u g db token g1 hgen
  obtain ⟨a, b, _⟩ := insertSession_ok c db _ hins
  rw [h1, h2, h4, a, b]
  refine ⟨hins, rfl, rfl, ?_, ?_, ?_, ⟨_, rfl, rfl, rfl, rfl, ?_, ?_⟩⟩
  · simp [DB.returned, DB.rowFor]
  · simp [DB.returned, Time.Add, Hour]
  · simp [DB.returned, Time.Add, Hour]
  · simp [DB.rowFor]
  · simp [DB.rowFor, Time.Add, Hour]

theorem CreateSession_fields_witness :
    listTokens ana.ID (24 * Hour) ["T3"] = (Except.ok "T3", []) ∧
    (db0.insertSession reach { Session.zero with
        UserId := ana.ID, Token := "T3", Provider := "LOCAL",
        ExpiresAt := Time.Add 100 (24 * Hour) }).err = none ∧
    ((User.CreateSession listTokens 100 reach ana ["T3"] db0).err = none ∧
      (User.CreateSession listTokens 100 reach ana ["T3"] db0).session.UserId = ana.ID ∧
      (User.CreateSession listTokens 100 reach ana ["T3"] db0).session.Token = "T3" ∧
      (User.CreateSession listTokens 100 reach ana ["T3"] db0).session.Provider = "LOCAL" ∧
      (User.CreateSession listTokens 100 reach ana ["T3"] db0).session.ExpiresAt =
        100 + 86400000000000 ∧
      100 < (User.CreateSession listTokens 100 reach ana ["T3"] db0).session.ExpiresAt ∧
      (∃ row : Session,
        (User.CreateSession listTokens 100 reach ana ["T3"] db0).db.sessions =
          db0.sessions ++ [row] ∧
        row.ID = (User.CreateSession listTokens 100 reach ana ["T3"] db0).session.ID ∧
        row.UserId = ana.ID ∧ row.Token = "T3" ∧ row.Provider = "LOCAL" ∧
        row.ExpiresAt = Time.micro (100 + 86400000000000))) :=
  ⟨rfl, rfl, CreateSession_fields listTokens 100 reach ana ["T3"] db0 "T3" [] rfl rfl⟩

/-- C10, the claim as written fails: the generator would give `"T1"` and then
`"fresh"`; `"T1"` is already stored, the insert is refused, and
`CreateSession` returns the insert error having drawn one token only: the
token `"fresh"`, which no row holds, is still waiting in the generator. -/
theorem CreateSession_collision_not_retried :
    "T1" ∈ db0.tokens ∧ "fresh" ∉ db0.tokens ∧
    (User.CreateSession listTokens 100 reach ana ["T1", "fresh"] db0).err =
      some (Error.uniqueViolation "sessions_token_key") ∧
    (User.CreateSession listTokens 100 reach ana ["T1", "fresh"] db0).gen = ["fresh"] ∧
    (User.CreateSession listTokens 100 reach ana ["T1", "fresh"] db0).db.sessions =
      db0.sessions := by
  refine ⟨by decide, by decide, rfl, rfl, rfl⟩

/-- C10, amended: when the insert of a new session is refused because its
token is already stored, `CreateSession` does not generate another token: it
returns the unique-constraint error of the insert to the caller, together
with the unsaved session, after exactly one call of the generator, and the
stored rows are as before. -/
theorem CreateSession_collision_returns_error {σ : Type}
    (CreateUserToken : Nat → Duration → σ → Except Error String × σ)
    (now : Time) (c : Exec) (u : User) (g : σ) (db : DB) (token : String) (g1 : σ)
    (hc : c.fault = none)
    (hgen : CreateUserToken u.ID (24 * Hour) g = (Except.ok token, g1))
    (hdup : token ∈ db.tokens) :
    ((User.CreateSession CreateUserToken now c u g db).err =
        some (Error.uniqueViolation "sessions_pkey") ∨
      (User.CreateSession CreateUserToken now c u g db).err =
        some (Error.uniqueViolation "sessions_token_key")) ∧
    (User.CreateSession CreateUserToken now c u g db).gen = g1 ∧
    (User.CreateSession CreateUserToken now c u g db).db.sessions = db.sessions ∧
    (User.CreateSession CreateUserToken now c u g db).session =
      { Session.zero with
        UserId := u.ID, Token := token, Provider := "LOCAL",
        ExpiresAt := Time.Add now (24 * Hour) } := by
  obtain ⟨h1, h2, h3, h4⟩ := CreateSession_of_token CreateUserToken now c u g db token g1 hgen
  have hd := insertSession_dup c db { Session.zero with
        UserId := u.ID, Token := token, Provider := "LOCAL",
        ExpiresAt := Time.Add now (24 * Hour) } hc hdup
  have hne : (db.insertSession c { Session.zero with
        UserId := u.ID, Token := token, Provider := "LOCAL",
        ExpiresAt := Time.Add now (24 * Hour) }).err ≠ none := by
    rcases hd with hd | hd <;> rw [hd] <;> simp
  obtain ⟨a, b⟩ := insertSession_err c db _ hne
  rw [h1, h2, h4, a, b]
  exact ⟨hd, h3, rfl, rfl⟩

theorem CreateSession_collision_returns_error_witness :
    reach.fault = none ∧
    listTokens ana.ID (24 * Hour) ["T1", "fresh"] = (Except.ok "T1", ["fresh"]) ∧
    "T1" ∈ db0.tokens ∧
    (((User.CreateSession listTokens 100 reach ana ["T1", "fresh"] db0).err =
          some (Error.uniqueViolation "sessions_pkey") ∨
        (User.CreateSession listTokens 100 reach ana ["T1", "fresh"] db0).err =
          some (Error.uniqueViolation "sessions_token_key")) ∧
      (User.CreateSession listTokens 100 reach ana ["T1", "fresh"] db0).gen = ["fresh"] ∧
      (User.CreateSession listTokens 100 reach ana ["T1", "fresh"] db0).db.sessions =
        db0.sessions ∧
      (User.CreateSession listTokens 100 reach ana ["T1", "fresh"] db0).session =
        { Session.zero with
          UserId := ana.ID, Token := "T1", Provider := "LOCAL",
          ExpiresAt := Time.Add 100 (24 * Hour) }) :=
  ⟨rfl, rfl, by decide,
    CreateSession_collision_returns_error listTokens 100 reach ana ["T1", "fresh"] db0
      "T1" ["fresh"] rfl rfl (by decide)⟩

theorem createAll_tokens {σ : Type}
    (CreateUserToken : Nat → Duration → σ → Except Error String × σ)
    (calls : List CreateCall) :
    ∀ (g : σ) (db : DB),
      (createAll CreateUserToken calls g db).db.tokens =
        db.tokens ++ issued (createAll CreateUserToken calls g db).results ∧
      (db.tokens.Nodup → (createAll CreateUserToken calls g db).db.tokens.Nodup) := by
  induction calls with
  | nil =>
    intro g db
    simp [createAll, issued]
  | cons k ks ih =>
    intro g db
    obtain ⟨ih1, ih2⟩ := ih (User.CreateSession CreateUserToken k.now k.c k.u g db).gen
      (User.CreateSession CreateUserToken k.now k.c k.u g db).db
    have hdb : (createAll CreateUserToken (k :: ks) g db).db =
        (createAll CreateUserToken ks
          (User.CreateSession CreateUserToken k.now k.c k.u g db).gen
          (User.CreateSession CreateUserToken k.now k.c k.u g db).db).db := rfl
    have hres : (createAll CreateUserToken (k :: ks) g db).results =
        ((User.CreateSession CreateUserToken k.now k.c k.u g db).session,
          (User.CreateSession CreateUserToken k.now k.c k.u g db).err) ::
        (createAll CreateUserToken ks
          (User.CreateSession CreateUserToken k.now k.c k.u g db).gen
          (User.CreateSession CreateUserToken k.now k.c k.u g db).db).results := rfl
    rw [hdb, hres]
    rcases CreateSession_step CreateUserToken k.now k.c k.u g db with ⟨he, hs⟩ | ⟨he, htok, hfresh⟩
    · have htok : (User.CreateSession CreateUserToken k.now k.c k.u g db).db.tokens =
          db.tokens := by
        simp [DB.tokens, hs]
      have hnone : (User.CreateSession CreateUserToken k.now k.c k.u g db).err.isNone =
          false := by
        cases hx : (User.CreateSession CreateUserToken k.now k.c k.u g db).err with
        | none => exact absurd hx he
        | some e => rfl
      constructor
      · rw [ih1, htok]
        simp [issued, hnone]
      · intro hnd
        exact ih2 (by rw [htok]; exact hnd)
    · constructor
      · rw [ih1, htok]
        simp [issued, he]
      · intro hnd
        apply ih2
        rw [htok]
        rw [List.nodup_append]
        refine ⟨hnd, List.nodup_singleton _, ?_⟩
        intro a ha hb
        rw [List.mem_singleton] at hb
        subst hb
        exact hfresh ha

/-- C3: from a table whose stored tokens are pairwise distinct, any run of
`CreateSession` calls leaves a table whose stored tokens are pairwise
distinct; the stored tokens are the earlier ones followed by the tokens of
the calls that returned without error, so these are distinct from each other
and from every earlier token; and a single call that returns without error
returned a token that no stored session held before the call. -/
theorem CreateSession_tokens_distinct {σ : Type}
    (CreateUserToken : Nat → Duration → σ → Except Error String × σ)
    (calls : List CreateCall) (g : σ) (db : DB) (hdistinct : db.tokens.Nodup) :
    (createAll CreateUserToken calls g db).db.tokens.Nodup ∧
    (createAll CreateUserToken calls g db).db.tokens =
      db.tokens ++ issued (createAll CreateUserToken calls g db).results ∧
    (db.tokens ++ issued (createAll CreateUserToken calls g db).results).Nodup ∧
    (∀ (now : Time) (c : Exec) (u : User) (g1 : σ) (db1 : DB),
      (User.CreateSession CreateUserToken now c u g1 db1).err = none →
        (User.CreateSession CreateUserToken now c u g1 db1).session.Token ∉ db1.tokens ∧
        (User.CreateSession CreateUserToken now c u g1 db1).db.tokens =
          db1.tokens ++ [(User.CreateSession CreateUserToken now c u g1 db1).session.Token]) := by
  obtain ⟨h1, h2⟩ := createAll_tokens CreateUserToken calls g db
  refine ⟨h2 hdistinct, h1, ?_, ?_⟩
  · rw [← h1]
    exact h2 hdistinct
  · intro now c u g1 db1 he
    rcases CreateSession_step CreateUserToken now c u g1 db1 with ⟨hne, _⟩ | ⟨_, hs, hfresh⟩
    · exact absurd he hne
    · exact ⟨hfresh, hs⟩

theorem CreateSession_tokens_distinct_witness :
    db0.tokens.Nodup ∧
    ((createAll listTokens
        [{ u := ana, now := 100, c := reach }, { u := ana, now := 200, c := reach }]
        ["T1", "T3"] db0).db.tokens.Nodup ∧
      (createAll listTokens
        [{ u := ana, now := 100, c := reach }, { u := ana, now := 200, c := reach }]
        ["T1", "T3"] db0).db.tokens =
        db0.tokens ++ issued (createAll listTokens
          [{ u := ana, now := 100, c := reach }, { u := ana, now := 200, c := reach }]
          ["T1", "T3"] db0).results ∧
      (db0.tokens ++ issued (createAll listTokens
          [{ u := ana, now := 100, c := reach }, { u := ana, now := 200, c := reach }]
          ["T1", "T3"] db0).results).Nodup ∧
      (∀ (now : Time) (c : Exec) (u : User) (g1 : List String) (db1 : DB),
        (User.CreateSession listTokens now c u g1 db1).err = none →
          (User.CreateSession listTokens now c u g1 db1).session.Token ∉ db1.tokens ∧
          (User.CreateSession listTokens now c u g1 db1).db.tokens =
            db1.tokens ++ [(User.CreateSession listTokens now c u g1 db1).session.Token])) :=
  ⟨by decide,
    CreateSession_tokens_distinct listTokens
      [{ u := ana, now := 100, c := reach }, { u := ana, now := 200, c := reach }]
      ["T1", "T3"] db0 (by decide)⟩

/-! ## `UpdateLastTimeActive` leaves everything but the last-active instant -/

theorem UpdateLastTimeActive_db (now : Time) (c : Exec) (s : Session) (db : DB) :
    ((Session.UpdateLastTimeActive now c s db).err = none →
      (Session.UpdateLastTimeActive now c s db).db.sessions =
        db.sessions.map
          (fun row =>
            if row.ID = s.ID then { row with LastTimeActive := Time.micro now } else row)) ∧
    ((Session.UpdateLastTimeActive now c s db).err ≠ none →
      (Session.UpdateLastTimeActive now c s db).db = db) ∧
    (Session.UpdateLastTimeActive now c s db).db.sessionsSeq = db.sessionsSeq := by
  unfold Session.UpdateLastTimeActive DB.updateLastTimeActive
  cases hf : c.fault <;> simp

theorem map_touch_fixed (l : List Session) (id : Nat) (now : Time) :
    (l.map (fun row => if row.ID = id then { row with LastTimeActive := now } else row)).map
      Session.fixed = l.map Session.fixed := by
  rw [List.map_map]
  apply List.map_congr_left
  intro r _
  simp only [Function.comp]
  split <;> rfl

theorem UpdateLastTimeActive_fixed (now : Time) (c : Exec) (s : Session) (db : DB) :
    (Session.UpdateLastTimeActive now c s db).db.sessions.map Session.fixed =
      db.sessions.map Session.fixed := by
  obtain ⟨h1, h2, _⟩ := UpdateLastTimeActive_db now c s db
  by_cases he : (Session.UpdateLastTimeActive now c s db).err = none
  · rw [h1 he, map_touch_fixed]
  · rw [h2 he]

theorem touchAll_fixed (calls : List TouchCall) :
    ∀ db : DB, (touchAll calls db).sessions.map Session.fixed =
      db.sessions.map Session.fixed := by
  induction calls with
  | nil => intro db; rfl
  | cons k ks ih =>
    intro db
    have hstep : touchAll (k :: ks) db =
        touchAll ks (Session.UpdateLastTimeActive k.now k.c k.s db).db := rfl
    rw [hstep, ih, UpdateLastTimeActive_fixed]

theorem find_token_fixed (token : String) (l : List Session) :
    ∀ l1 : List Session, l.map Session.fixed = l1.map Session.fixed →
      (l.find? (fun r => decide (r.Token = token))).map Session.fixed =
        (l1.find? (fun r => decide (r.Token = token))).map Session.fixed := by
  induction l with
  | nil =>
    intro l1 h
    cases l1 with
    | nil => rfl
    | cons b t => simp at h
  | cons a t ih =>
    intro l1 h
    cases l1 with
    | nil => simp at h
    | cons b t1 =>
      simp only [List.map_cons, List.cons.injEq] at h
      obtain ⟨hab, ht⟩ := h
      have htok : a.Token = b.Token := by
        have := congrArg (fun x => x.2.2.1) hab
        simpa [Session.fixed] using this
      simp only [List.find?_cons, htok]
      by_cases hb : b.Token = token
      · simp [hb, hab]
      · simp [hb, ih t1 ht]

theorem expired_of_select (t : Time) (c : Exec) (db : DB) (token : String)
    (hc : c.fault = none)
    (hexp : SelectSessionByToken t c db token =
      Except.error (Error.errorsNew "session expired")) :
    ∃ s0, db.sessions.find? (fun r => decide (r.Token = token)) = some s0 ∧
      s0.ExpiresAt < t := by
  unfold SelectSessionByToken DB.scanSessionByToken at hexp
  simp only [hc] at hexp
  cases hfind : db.sessions.find? (fun r => decide (r.Token = token)) with
  | none =>
    rw [hfind] at hexp
    simp at hexp
  | some s0 =>
    rw [hfind] at hexp
    refine ⟨s0, rfl, ?_⟩
    by_cases hlt : s0.ExpiresAt < t
    · exact hlt
    · simp [Time.Before, hlt] at hexp

theorem expired_after_touches (calls : List TouchCall) (db : DB) (token : String)
    (t1 t2 : Time) (c1 c2 : Exec) (hc1 : c1.fault = none)
    (hexp : SelectSessionByToken t1 c1 db token =
      Except.error (Error.errorsNew "session expired"))
    (hle : t1 ≤ t2) :
    (c2.fault = none →
      SelectSessionByToken t2 c2 (touchAll calls db) token =
        Except.error (Error.errorsNew "session expired")) ∧
    (∀ s1, SelectSessionByToken t2 c2 (touchAll calls db) token ≠ Except.ok s1) := by
  have hfix := touchAll_fixed calls db
  obtain ⟨s0, hfind, hlt⟩ := expired_of_select t1 c1 db token hc1 hexp
  have hfind2 := find_token_fixed token (touchAll calls db).sessions db.sessions hfix
  rw [hfind] at hfind2
  have hsel : c2.fault = none →
      SelectSessionByToken t2 c2 (touchAll calls db) token =
        Except.error (Error.errorsNew "session expired") := by
    intro hc2
    cases hf : (touchAll calls db).sessions.find? (fun r => decide (r.Token = token)) with
    | none =>
      rw [hf] at hfind2
      simp at hfind2
    | some s2 =>
      rw [hf] at hfind2
      simp only [Option.map_some', Option.some.injEq] at hfind2
      have hexpAt : s2.ExpiresAt = s0.ExpiresAt := by
        have := congrArg (fun x => x.2.2.2.2.1) hfind2
        simpa [Session.fixed] using this
      have hlt2 : s2.ExpiresAt < t2 := by
        rw [hexpAt]
        exact lt_of_lt_of_le hlt hle
      unfold SelectSessionByToken DB.scanSessionByToken
      simp [hc2, hf, Time.Before, hlt2]
  refine ⟨hsel, ?_⟩
  intro s1 hs1
  cases hf2 : c2.fault with
  | none =>
    rw [hsel hf2] at hs1
    cases hs1
  | some e =>
    have hscan := scanSessionByToken_fault c2 (touchAll calls db) token e hf2
    have := select_of_scan_error t2 c2 (touchAll calls db) token e hscan
    rw [this] at hs1
    cases hs1

/-- C8, the claim as written fails: the stored row does not always carry
`now`.  A call at instant 2500 whose update goes through leaves 2500 in the
session in memory and 2000, the instant kept to the microsecond, in the
stored row with that id; and a call whose update fails leaves the stored row
with the instant it had, 10000. -/
theorem UpdateLastTimeActive_stored_instant_not_now :
    (Session.UpdateLastTimeActive 2500 reach anaSession db0).err = none ∧
    (Session.UpdateLastTimeActive 2500 reach anaSession db0).session.LastTimeActive = 2500 ∧
    (Session.UpdateLastTimeActive 2500 reach anaSession db0).db.sessions =
      [{ anaSession with LastTimeActive := 2000 }, otherSession] ∧
    ((Session.UpdateLastTimeActive 2500 reach anaSession db0).db.sessions.find?
        (fun r => decide (r.ID = anaSession.ID))).map Session.LastTimeActive ≠ some 2500 ∧
    (Session.UpdateLastTimeActive 2500 broken anaSession db0).err ≠ none ∧
    ((Session.UpdateLastTimeActive 2500 broken anaSession db0).db.sessions.find?
        (fun r => decide (r.ID = anaSession.ID))).map Session.LastTimeActive = some 10000 := by
  refine ⟨rfl, rfl, rfl, by decide, by decide, rfl⟩

/-- C8, amended: `UpdateLastTimeActive` sets `LastTimeActive` of the session
in memory to `now` and leaves its other fields as they were; when the update
goes through, every stored row with the session's id gets `now` kept to the
microsecond as its `LastTimeActive` and is otherwise unchanged, and every
other row is unchanged; when it fails the table is as before.  Over any run
of such calls every stored row keeps all its fields other than
`LastTimeActive`, `ExpiresAt` included, so a token that `SelectSessionByToken`
rejects as expired at `t1` is rejected at every `t2` not earlier than `t1`
after the run, again as expired whenever the lookup reaches the table. -/
theorem UpdateLastTimeActive_frame (now : Time) (c : Exec) (s : Session) (db : DB)
    (calls : List TouchCall) :
    ((Session.UpdateLastTimeActive now c s db).session.LastTimeActive = now ∧
      (Session.UpdateLastTimeActive now c s db).session.ID = s.ID ∧
      (Session.UpdateLastTimeActive now c s db).session.UserId = s.UserId ∧
      (Session.UpdateLastTimeActive now c s db).session.Token = s.Token ∧
      (Session.UpdateLastTimeActive now c s db).session.Provider = s.Provider ∧
      (Session.UpdateLastTimeActive now c s db).session.ExpiresAt = s.ExpiresAt ∧
      (Session.UpdateLastTimeActive now c s db).session.DeviceInfo = s.DeviceInfo) ∧
    ((Session.UpdateLastTimeActive now c s db).err = none →
      (Session.UpdateLastTimeActive now c s db).db.sessions =
        db.sessions.map
          (fun row =>
            if row.ID = s.ID then { row with LastTimeActive := Time.micro now } else row)) ∧
    ((Session.UpdateLastTimeActive now c s db).err ≠ none →
      (Session.UpdateLastTimeActive now c s db).db = db) ∧
    (Session.UpdateLastTimeActive now c s db).db.users = db.users ∧
    (touchAll calls db).sessions.map Session.fixed = db.sessions.map Session.fixed ∧
    (∀ (token : String) (t1 t2 : Time) (c1 c2 : Exec),
      c1.fault = none →
      SelectSessionByToken t1 c1 db token =
        Except.error (Error.errorsNew "session expired") →
      t1 ≤ t2 →
        (c2.fault = none →
          SelectSessionByToken t2 c2 (touchAll calls db) token =
            Except.error (Error.errorsNew "session expired")) ∧
        (∀ s1, SelectSessionByToken t2 c2 (touchAll calls db) token ≠ Except.ok s1)) := by
  obtain ⟨hd1, hd2, _⟩ := UpdateLastTimeActive_db now c s db
  have hmem : (Session.UpdateLastTimeActive now c s db).session =
      { s with LastTimeActive := now } := by
    unfold Session.UpdateLastTimeActive
    cases hu : db.updateLastTimeActive c s.ID now <;> simp [hu]
  have husers : (Session.UpdateLastTimeActive now c s db).db.users = db.users := by
    unfold Session.UpdateLastTimeActive DB.updateLastTimeActive
    cases hf : c.fault <;> simp
  refine ⟨?_, hd1, hd2, husers, touchAll_fixed calls db, ?_⟩
  · rw [hmem]
    exact ⟨rfl, rfl, rfl, rfl, rfl, rfl, rfl⟩
  · intro token t1 t2 c1 c2 hc1 hexp hle
    exact expired_after_touches calls db token t1 t2 c1 c2 hc1 hexp hle

theorem UpdateLastTimeActive_frame_witness :
    (Session.UpdateLastTimeActive 2500 reach anaSession db0).err = none ∧
    (Session.UpdateLastTimeActive 2500 reach anaSession db0).db.sessions =
      [{ anaSession with LastTimeActive := 2000 }, otherSession] ∧
    SelectSessionByToken 1001 reach db0 "T1" =
      Except.error (Error.errorsNew "session expired") ∧
    SelectSessionByToken 3000 reach
      (touchAll [{ s := anaSession, now := 2000, c := reach },
        { s := otherSession, now := 2100, c := broken }] db0) "T1" =
      Except.error (Error.errorsNew "session expired") :=
  ⟨rfl,
    ((UpdateLastTimeActive_frame 2500 reach anaSession db0 []).2.1 rfl).trans rfl,
    rfl,
    ((UpdateLastTimeActive_frame 2500 reach anaSession db0
      [{ s := anaSession, now := 2000, c := reach },
        { s := otherSession, now := 2100, c := broken }]).2.2.2.2.2
      "T1" 1001 3000 reach reach rfl rfl (by decide)).1 rfl⟩

end Org
